import Mathlib

/-!
# Verification of the WhatsApp AI chatbot dispatch engine

Shallow embedding of `src/whatsapp_ai_chatbot.py`: the SQLite-backed
session store (`users`, `conversations` tables), the `ratelimit`-library
rate limiter (`@sleep_and_retry @limits(calls=5, period=60)` on
`check_rate_limit`), the chat dispatcher `get_ai_response`, and the
transport handler `handle_message`.

Modelling conventions:
* Machine state (`SysState`) carries the database, the rate-limiter
  state of the single module-level decorator instance, a logical clock
  (seconds, `Nat`), the set of live temporary files, and instrumentation
  that records every provider call made (`providerLog`) and counts
  storage operations (`storageOps`, used for fault injection).
* Timestamps of `conversations` rows strictly increase with insertion
  order (`datetime.now()` is monotone within a process and ties are
  broken by the AUTOINCREMENT id), so `ORDER BY timestamp DESC` over a
  user's rows is the reverse of insertion order; the embedding keeps
  rows in insertion order and models the query accordingly.
* External collaborators are oracles in `Env`: the provider HTTP call,
  the media download, the PDF text extraction, and a fault schedule for
  storage operations (`sqlite3` can raise on any statement).
* Python exceptions are modelled by `Res`: an exceptional result carries
  the state at the raise point, since mutations made before an exception
  persist across an `except` handler.
-/

/-! ## Character-level models of the Python string primitives -/

/-- Whitespace as recognised by Python `str.split()` / `str.strip()`. -/
def isSpaceChar (c : Char) : Bool :=
  c = ' ' || c = '\t' || c = '\n' || c = '\r'

/-- Python `str.lower()`. -/
def pyLower (s : String) : String :=
  ⟨s.data.map Char.toLower⟩

/-- Python `str.startswith(p)`. -/
def pyStartsWith (s p : String) : Bool :=
  s.data.take p.data.length == p.data

/-- Python `s[n:]` (drop the first `n` characters). -/
def pyDrop (s : String) (n : Nat) : String :=
  ⟨s.data.drop n⟩

/-- Python `str.strip()`. -/
def pyStrip (s : String) : String :=
  ⟨((s.data.dropWhile isSpaceChar).reverse.dropWhile isSpaceChar).reverse⟩

/-- Helper for Python `str.split()`: accumulates the current word (reversed). -/
def pySplitAux : List Char → List Char → List String
  | [], acc => if acc.isEmpty then [] else [⟨acc.reverse⟩]
  | c :: cs, acc =>
    if isSpaceChar c then
      if acc.isEmpty then pySplitAux cs [] else ⟨acc.reverse⟩ :: pySplitAux cs []
    else
      pySplitAux cs (c :: acc)

/-- Python `str.split()` with no argument: split on runs of whitespace,
dropping empty fields. -/
def pySplit (s : String) : List String :=
  pySplitAux s.data []

/-- Python `sep.join(xs)`. -/
def pyJoin (sep : String) : List String → String
  | [] => ""
  | [x] => x
  | x :: xs => x ++ sep ++ pyJoin sep xs

/-! ## Data model: the SQLite tables -/

/-- A row of the `users` table: `(id TEXT PRIMARY KEY, provider TEXT, last_request TIMESTAMP)`. -/
structure UserRow where
  id : String
  provider : String
  last_request : Nat
deriving Repr, DecidableEq

/-- A row of the `conversations` table (the AUTOINCREMENT id and the
timestamp are both represented by the row's position in the list). -/
structure ConvRow where
  user_id : String
  role : String
  content : String
deriving Repr, DecidableEq

/-- The persistent database. -/
structure DB where
  users : List UserRow
  conversations : List ConvRow
deriving Repr, DecidableEq

/-! ## The `ratelimit` library -/

/-- State of one `RateLimitDecorator` instance (the module has exactly one,
created at import time, shared by every caller of `check_rate_limit`). -/
structure RateLimiterState where
  last_reset : Nat
  num_calls : Nat
deriving Repr, DecidableEq

/-- One pass through the `limits(calls=5, period=60)` wrapper body:
if the period has elapsed, reset the window; count the call; raise
`RateLimitException` (`true`) when the count exceeds 5. -/
def limitsStep (rl : RateLimiterState) (now : Nat) : RateLimiterState × Bool :=
  let rl := if 60 ≤ now - rl.last_reset then { last_reset := now, num_calls := 0 } else rl
  let rl := { rl with num_calls := rl.num_calls + 1 }
  if 5 < rl.num_calls then (rl, true) else (rl, false)

/-- Model of `check_rate_limit(user_id)` as decorated with `@sleep_and_retry`:
on `RateLimitException` the wrapper sleeps `period_remaining =
60 - (now - last_reset)` seconds and retries; the retry then finds the
period elapsed, resets the window and is admitted (see
`limitsStep_after_sleep`), so one retry always suffices and the function
returns normally in every case.  It returns the limiter state and the
time at which it returned (later than `now` when it slept).  The
`user_id` argument is ignored, exactly as in the source (`pass`). -/
def check_rate_limit (rl : RateLimiterState) (user_id : String) (now : Nat) :
    RateLimiterState × Nat :=
  match limitsStep rl now with
  | (rl1, false) => (rl1, now)
  | (rl1, true) =>
    let wake := rl1.last_reset + 60
    ((limitsStep rl1 wake).1, wake)

/-! ## Oracles, exceptions, machine state -/

/-- A normalised request to a provider backend, as built at the call
sites of the two HTTP clients. -/
inductive ProviderReq where
  | openai (model : String) (messages : List (String × String))
  | claude (model : String) (prompt : String) (max_tokens_to_sample : Nat)
deriving Repr, DecidableEq

/-- Python exception classes distinguished by the embedding. -/
inductive PyExn where
  | storage
  | extraction
  | download
deriving Repr, DecidableEq

/-- Whole-machine state threaded through one or more events. -/
structure SysState where
  db : DB
  rl : RateLimiterState
  clock : Nat
  tempFiles : List Nat
  nextTemp : Nat
  storageOps : Nat
  providerLog : List (String × ProviderReq)
deriving Repr, DecidableEq

/-- Result of a Python call: normal return or exception, each carrying
the state at that point (mutations before a raise persist). -/
inductive Res (α : Type) where
  | ok (st : SysState) (val : α)
  | exn (st : SysState) (e : PyExn)
deriving Repr, DecidableEq

/-- The state a result carries, whether normal or exceptional. -/
def Res.state : Res α → SysState
  | .ok st _ => st
  | .exn st _ => st

/-- External collaborators and the storage fault schedule. -/
structure Env where
  providerResult : ProviderReq → Except Unit String
  downloadOk : Bool
  extractResult : Except Unit String
  storageFail : Nat → Bool

/-! ## SessionStore operations -/

/-- One SQLite statement: fails when the fault schedule says so,
otherwise bumps the statement counter. -/
def storageOp (env : Env) (st : SysState) : Option SysState :=
  if env.storageFail st.storageOps then none
  else some { st with storageOps := st.storageOps + 1 }

/-- Model of `get_user_data(user_id)`: SELECT; on miss, INSERT the row
`(user_id, "openai", now)` and return the defaults. -/
def get_user_data (env : Env) (st : SysState) (user_id : String) :
    Res (String × Nat) :=
  match storageOp env st with
  | none => .exn st .storage
  | some st =>
    match st.db.users.find? (fun u => u.id = user_id) with
    | some u => .ok st (u.provider, u.last_request)
    | none =>
      match storageOp env st with
      | none => .exn st .storage
      | some st =>
        let st := { st with db := { st.db with
          users := st.db.users ++ [⟨user_id, "openai", st.clock⟩] } }
        .ok st ("openai", st.clock)

/-- Model of `update_user_data(user_id, provider)`: UPDATE provider and
`last_request` for the row with that id. -/
def update_user_data (env : Env) (st : SysState) (user_id provider : String) :
    Res Unit :=
  match storageOp env st with
  | none => .exn st .storage
  | some st =>
    .ok { st with db := { st.db with
      users := st.db.users.map (fun u =>
        if u.id = user_id then { u with provider := provider, last_request := st.clock }
        else u) } } ()

/-- The user's rows of the `conversations` table, projected to
`(role, content)`, in insertion (= chronological) order. -/
def historyRows (db : DB) (user_id : String) : List (String × String) :=
  (db.conversations.filter (fun m => m.user_id = user_id)).map (fun m => (m.role, m.content))

/-- The pure content of `get_conversation_history`:
`SELECT role, content … ORDER BY timestamp DESC LIMIT limit` followed by
the Python `[::-1]` reversal.  With timestamps strictly increasing in
insertion order, DESC is the reverse of `historyRows`. -/
def get_conversation_history_db (db : DB) (user_id : String) (limit : Nat) :
    List (String × String) :=
  (((historyRows db user_id).reverse).take limit).reverse

/-- Model of `get_conversation_history(user_id, limit=10)` as an effectful call. -/
def get_conversation_history (env : Env) (st : SysState) (user_id : String)
    (limit : Nat) : Res (List (String × String)) :=
  match storageOp env st with
  | none => .exn st .storage
  | some st => .ok st (get_conversation_history_db st.db user_id limit)

/-- Model of `add_to_conversation(user_id, role, content)`: INSERT one row. -/
def add_to_conversation (env : Env) (st : SysState) (user_id role content : String) :
    Res Unit :=
  match storageOp env st with
  | none => .exn st .storage
  | some st =>
    .ok { st with db := { st.db with
      conversations := st.db.conversations ++ [⟨user_id, role, content⟩] } } ()

/-! ## Fixed reply strings of the source -/

def throttleReply : String :=
  "You\x27ve reached the rate limit. Please try again later."

def apologyReply : String :=
  "I\x27m sorry, but I encountered an error while processing your request. Please try again later."

def invalidProviderReply : String :=
  "Invalid provider. Use \x27openai\x27 or \x27claude\x27."

def pdfTemplate (pdf_content : String) : String :=
  "The user has provided a PDF with the following content:\n\n" ++ pdf_content ++
    "\n\nPlease use this information as context for the conversation."

def pdfUploadedQuery : String :=
  "I\x27ve uploaded a PDF. Please use its content as context for our conversation."

def pdfProcessedReply : String :=
  "I\x27ve processed the PDF you sent. You can now ask questions about its content."

def pdfErrorReply : String :=
  "I\x27m sorry, but I encountered an error while processing your PDF. Please try again later."

/-! ## Provider request construction -/

/-- Role label used when flattening the window for the Claude prompt. -/
def claudeLabel (role : String) : String :=
  if role = "user" then "Human"
  else if role = "assistant" then "Assistant"
  else "System"

/-- Python `"\n\n".join(f"{label}: {content}" for …)`. -/
def claudeFlatten (msgs : List (String × String)) : String :=
  pyJoin "\n\n" (msgs.map (fun m => claudeLabel m.1 ++ ": " ++ m.2))

/-! ## `get_ai_response` -/

/-- Model of the `!switch` block of `get_ai_response` (lines 86 to 94): returns
`some` when the block returns from the function, `none` when control
falls through to the chat path (not a switch, or no second token). -/
def switchBlock (env : Env) (st : SysState) (user_id message : String) :
    Option (Res String) :=
  if pyStartsWith (pyLower message) "!switch" then
    match pySplit message with
    | _ :: second :: _ =>
      let new_provider := pyLower second
      if new_provider = "openai" ∨ new_provider = "claude" then
        some (match update_user_data env st user_id new_provider with
          | .exn st e => .exn st e
          | .ok st _ => .ok st ("Switched to " ++ new_provider))
      else
        some (.ok st invalidProviderReply)
    | _ => none
  else none

/-- Model of `get_ai_response(user_id, message, pdf_content=None)`.

The rate-limit `try/except` is degenerate: `sleep_and_retry` never lets
`RateLimitException` escape, so the `except` branch that would return
`throttleReply` is unreachable; the call can only block (advance the
clock).  Inside the provider `try` block, a failure of the HTTP call or
of the assistant-row INSERT is caught and turned into `apologyReply`;
when the stored provider is neither `"openai"` nor `"claude"` the name
`ai_message` is unbound and its use raises `NameError`, likewise caught
and turned into `apologyReply`. -/
def get_ai_response (env : Env) (st : SysState) (user_id message : String)
    (pdf_content : Option String) : Res String :=
  let rt := check_rate_limit st.rl user_id st.clock
  let st := { st with rl := rt.1, clock := rt.2 }
  match get_user_data env st user_id with
  | .exn st e => .exn st e
  | .ok st user_data =>
  match get_conversation_history env st user_id 10 with
  | .exn st e => .exn st e
  | .ok st conversation =>
  match switchBlock env st user_id message with
  | some r => r
  | none =>
  let pdfStep : Res Unit :=
    match pdf_content with
    | some t => add_to_conversation env st user_id "system" (pdfTemplate t)
    | none => .ok st ()
  match pdfStep with
  | .exn st e => .exn st e
  | .ok st _ =>
  match add_to_conversation env st user_id "user" message with
  | .exn st e => .exn st e
  | .ok st _ =>
  if user_data.1 = "openai" then
    let req := ProviderReq.openai "gpt-4" (conversation ++ [("user", message)])
    let st := { st with providerLog := st.providerLog ++ [(user_id, req)] }
    match env.providerResult req with
    | .error _ => .ok st apologyReply
    | .ok ai_message =>
      match add_to_conversation env st user_id "assistant" ai_message with
      | .exn st _ => .ok st apologyReply
      | .ok st _ => .ok st ai_message
  else if user_data.1 = "claude" then
    let prompt := claudeFlatten (conversation ++ [("user", message)]) ++ "\n\nAssistant:"
    let req := ProviderReq.claude "claude-2" prompt 300
    let st := { st with providerLog := st.providerLog ++ [(user_id, req)] }
    match env.providerResult req with
    | .error _ => .ok st apologyReply
    | .ok ai_message =>
      match add_to_conversation env st user_id "assistant" ai_message with
      | .exn st _ => .ok st apologyReply
      | .ok st _ => .ok st ai_message
  else
    .ok st apologyReply

/-! ## `handle_message` -/

/-- A normalised inbound transport event. -/
structure InboundMsg where
  from_ : String
  body : String
  hasMedia : Bool
  type : String
  mimetype : String
deriving Repr, DecidableEq

/-- Model of `handle_message(message)`: returns the list of `message.reply`
calls issued for the event.  The PDF branch runs inside `try/except`,
so every failure there (download, temp-file handling, extraction, and
anything raised by `get_ai_response`) becomes the single PDF error
reply; the temp file is unlinked only after successful extraction.  The
`!ai` branch has no `try/except`: an exception raised by
`get_ai_response` (a storage failure) propagates out of the handler.
An event matching neither branch is ignored: no reply, no state
change. -/
def handle_message (env : Env) (st : SysState) (message : InboundMsg) :
    Res (List String) :=
  let user_id := message.from_
  if message.hasMedia ∧ message.type = "document" ∧ message.mimetype = "application/pdf" then
    if env.downloadOk then
      let temp := st.nextTemp
      let st := { st with tempFiles := st.tempFiles ++ [temp], nextTemp := st.nextTemp + 1 }
      match env.extractResult with
      | .error _ => .ok st [pdfErrorReply]
      | .ok pdf_content =>
        let st := { st with tempFiles := st.tempFiles.filter (fun t => t ≠ temp) }
        match get_ai_response env st user_id pdfUploadedQuery (some pdf_content) with
        | .exn st _ => .ok st [pdfErrorReply]
        | .ok st _response => .ok st [pdfProcessedReply]
    else
      .ok st [pdfErrorReply]
  else if pyStartsWith message.body "!ai" then
    let query := pyStrip (pyDrop message.body 4)
    match get_ai_response env st user_id query none with
    | .exn st e => .exn st e
    | .ok st response => .ok st [response]
  else
    .ok st []

/-! ## Initial state and an event driver -/

/-- State at process start: empty tables, the rate limiter freshly
created at module load (`last_reset = 0`), clock 0. -/
def initState : SysState :=
  { db := { users := [], conversations := [] }
    rl := { last_reset := 0, num_calls := 0 }
    clock := 0
    tempFiles := []
    nextTemp := 0
    storageOps := 0
    providerLog := [] }

/-- Runs a sequence of events, each tagged with its arrival time;
events are serialised (the source handler is a single async task per
event and the loop is effectively sequential), so an event arriving
while the previous one is still sleeping starts only when the previous
one finished (`max st.clock t`).  Produces, per event, `some replies`
or `none` when the handler raised. -/
def runEvents (env : Env) (st : SysState) :
    List (Nat × InboundMsg) → SysState × List (Option (List String))
  | [] => (st, [])
  | (t, m) :: rest =>
    let st := { st with clock := max st.clock t }
    match handle_message env st m with
    | .ok st r =>
      let next := runEvents env st rest
      (next.1, some r :: next.2)
    | .exn st _ =>
      let next := runEvents env st rest
      (next.1, none :: next.2)

/-- Looks up a user's stored provider. -/
def providerOf (db : DB) (user_id : String) : Option String :=
  (db.users.find? (fun u => u.id = user_id)).map (fun u => u.provider)

/-- The provider invariant: every stored user record's provider is one
of the two recognised backends. -/
def ProvidersOk (db : DB) : Prop :=
  ∀ u ∈ db.users, u.provider = "openai" ∨ u.provider = "claude"

instance : DecidablePred ProvidersOk := fun db =>
  inferInstanceAs (Decidable (∀ u ∈ db.users, u.provider = "openai" ∨ u.provider = "claude"))

/-- Whether a call returned normally. -/
def Res.isOk : Res α → Bool
  | .ok _ _ => true
  | .exn _ _ => false

/-! ## Concrete scenarios used to exercise the model -/

/-- Benign collaborators: the provider always answers `"ok"`, media
downloads and PDF extraction succeed, storage never fails. -/
def envHappy : Env :=
  { providerResult := fun _ => .ok "ok"
    downloadOk := true
    extractResult := .ok "PDFTEXT"
    storageFail := fun _ => false }

/-- Benign collaborators except that `extract_text_from_pdf` raises. -/
def envExtractFail : Env := { envHappy with extractResult := .error () }

/-- Benign collaborators except that every provider call fails. -/
def envProviderFail : Env := { envHappy with providerResult := fun _ => .error () }

/-- Benign collaborators except that every SQLite statement raises. -/
def envStorageFail : Env := { envHappy with storageFail := fun _ => true }

/-- A plain text event from `user`. -/
def textEvent (user body : String) : InboundMsg :=
  { from_ := user, body := body, hasMedia := false, type := "chat", mimetype := "text/plain" }

/-- A PDF document event from `user`. -/
def pdfEvent (user : String) : InboundMsg :=
  { from_ := user, body := "", hasMedia := true, type := "document"
    mimetype := "application/pdf" }

/-- Six chat requests from one user within the 60-second window. -/
def sixAliceRequests : List (Nat × InboundMsg) :=
  [(0, textEvent "alice" "!ai hi"), (1, textEvent "alice" "!ai hi"),
   (2, textEvent "alice" "!ai hi"), (3, textEvent "alice" "!ai hi"),
   (4, textEvent "alice" "!ai hi"), (5, textEvent "alice" "!ai hi")]

/-- Five requests from `bob`, then the first-ever request from `alice`. -/
def fiveBobThenAlice : List (Nat × InboundMsg) :=
  [(0, textEvent "bob" "!ai hi"), (1, textEvent "bob" "!ai hi"),
   (2, textEvent "bob" "!ai hi"), (3, textEvent "bob" "!ai hi"),
   (4, textEvent "bob" "!ai hi"), (10, textEvent "alice" "!ai hi")]

/-- The same single `alice` request with no other traffic. -/
def aliceAloneAtTen : List (Nat × InboundMsg) :=
  [(10, textEvent "alice" "!ai hi")]

/-- A state in which `alice` already has a user row. -/
def stAlice : SysState :=
  { initState with db := { users := [⟨"alice", "openai", 0⟩], conversations := [] } }

/-- A state in which `alice` has a user row and a two-turn transcript. -/
def stConv : SysState :=
  { initState with db :=
      { users := [⟨"alice", "openai", 0⟩],
        conversations := [⟨"alice", "user", "hi"⟩, ⟨"alice", "assistant", "hey"⟩] } }

/-- A database holding messages `m1..m12` for user `u`. -/
def db12 : DB :=
  { users := [⟨"u", "openai", 0⟩],
    conversations :=
      [⟨"u", "user", "m1"⟩, ⟨"u", "user", "m2"⟩, ⟨"u", "user", "m3"⟩,
       ⟨"u", "user", "m4"⟩, ⟨"u", "user", "m5"⟩, ⟨"u", "user", "m6"⟩,
       ⟨"u", "user", "m7"⟩, ⟨"u", "user", "m8"⟩, ⟨"u", "user", "m9"⟩,
       ⟨"u", "user", "m10"⟩, ⟨"u", "user", "m11"⟩, ⟨"u", "user", "m12"⟩] }

/-! ## Lemmas and claim theorems -/


theorem Res.isOk_iff {α : Type} {r : Res α} : r.isOk = true ↔ ∃ st v, r = .ok st v := by
  cases r <;> simp [Res.isOk]

theorem storageOp_ok (env : Env) (st : SysState) (h : ∀ n, env.storageFail n = false) :
    storageOp env st = some { st with storageOps := st.storageOps + 1 } := by
  simp [storageOp, h]

theorem get_user_data_ok (env : Env) (st : SysState) (u : String)
    (h : ∀ n, env.storageFail n = false) : (get_user_data env st u).isOk = true := by
  unfold get_user_data
  rw [storageOp_ok env _ h]
  cases hf : ({ st with storageOps := st.storageOps + 1 } : SysState).db.users.find?
      (fun x => x.id = u) with
  | some u => simp [hf, Res.isOk]
  | none => simp [hf, storageOp_ok env _ h, Res.isOk]

theorem get_conversation_history_ok (env : Env) (st : SysState) (u : String) (l : Nat)
    (h : ∀ n, env.storageFail n = false) :
    (get_conversation_history env st u l).isOk = true := by
  unfold get_conversation_history
  rw [storageOp_ok env _ h]
  simp [Res.isOk]

theorem add_to_conversation_ok (env : Env) (st : SysState) (u r c : String)
    (h : ∀ n, env.storageFail n = false) :
    (add_to_conversation env st u r c).isOk = true := by
  unfold add_to_conversation
  rw [storageOp_ok env _ h]
  simp [Res.isOk]

theorem update_user_data_ok (env : Env) (st : SysState) (u p : String)
    (h : ∀ n, env.storageFail n = false) :
    (update_user_data env st u p).isOk = true := by
  unfold update_user_data
  rw [storageOp_ok env _ h]
  simp [Res.isOk]

theorem switchBlock_ok (env : Env) (st : SysState) (u m : String)
    (h : ∀ n, env.storageFail n = false) :
    ∀ r, switchBlock env st u m = some r → r.isOk = true := by
  intro r hr
  unfold switchBlock at hr
  split at hr
  · split at hr
    · rename_i a second tail heq
      simp only at hr
      split at hr
      · rcases hu : update_user_data env st u (pyLower second) with _ | _
        · simp [hu] at hr
          simp [← hr, Res.isOk]
        · have hw := update_user_data_ok env st u (pyLower second) h
          rw [hu] at hw
          simp [Res.isOk] at hw
      · simp at hr
        simp [← hr, Res.isOk]
    · simp at hr
  · simp at hr

theorem get_ai_response_ok (env : Env) (st : SysState) (u m : String) (p : Option String)
    (h : ∀ n, env.storageFail n = false) :
    (get_ai_response env st u m p).isOk = true := by
  unfold get_ai_response
  simp only
  cases hg : get_user_data env
      { st with rl := (check_rate_limit st.rl u st.clock).1,
                clock := (check_rate_limit st.rl u st.clock).2 } u with
  | exn st' e =>
    have hw := get_user_data_ok env
      { st with rl := (check_rate_limit st.rl u st.clock).1,
                clock := (check_rate_limit st.rl u st.clock).2 } u h
    rw [hg] at hw
    simp [Res.isOk] at hw
  | ok st1 ud =>
    simp only [hg]
    cases hc : get_conversation_history env st1 u 10 with
    | exn st' e =>
      have hw := get_conversation_history_ok env st1 u 10 h
      rw [hc] at hw
      simp [Res.isOk] at hw
    | ok st2 conv =>
      simp only [hc]
      cases hsb : switchBlock env st2 u m with
      | some r => simp only [hsb]; exact switchBlock_ok env st2 u m h r hsb
      | none =>
        simp only [hsb]
        cases p with
        | some t =>
          cases hp : add_to_conversation env st2 u "system" (pdfTemplate t) with
          | exn st' e =>
            have hw := add_to_conversation_ok env st2 u "system" (pdfTemplate t) h
            rw [hp] at hw
            simp [Res.isOk] at hw
          | ok st3 v =>
            simp only [hp]
            cases ha : add_to_conversation env st3 u "user" m with
            | exn st' e =>
              have hw := add_to_conversation_ok env st3 u "user" m h
              rw [ha] at hw
              simp [Res.isOk] at hw
            | ok st4 v2 =>
              simp only [ha]
              split
              · cases hpr : env.providerResult (ProviderReq.openai "gpt-4"
                    (conv ++ [("user", m)])) with
                | error e => simp [hpr, Res.isOk]
                | ok ai =>
                  simp only [hpr]
                  cases h2 : add_to_conversation env
                      { st4 with providerLog := st4.providerLog ++
                        [(u, ProviderReq.openai "gpt-4" (conv ++ [("user", m)]))] }
                      u "assistant" ai with
                  | exn _ _ => simp [h2, Res.isOk]
                  | ok _ _ => simp [h2, Res.isOk]
              · split
                · cases hpr : env.providerResult (ProviderReq.claude "claude-2"
                      (claudeFlatten (conv ++ [("user", m)]) ++ "\n\nAssistant:") 300) with
                  | error e => simp [hpr, Res.isOk]
                  | ok ai =>
                    simp only [hpr]
                    cases h2 : add_to_conversation env
                        { st4 with providerLog := st4.providerLog ++
                          [(u, ProviderReq.claude "claude-2"
                            (claudeFlatten (conv ++ [("user", m)]) ++ "\n\nAssistant:") 300)] }
                        u "assistant" ai with
                    | exn _ _ => simp [h2, Res.isOk]
                    | ok _ _ => simp [h2, Res.isOk]
                · simp [Res.isOk]
        | none =>
          simp only
          cases ha : add_to_conversation env st2 u "user" m with
          | exn st' e =>
            have hw := add_to_conversation_ok env st2 u "user" m h
            rw [ha] at hw
            simp [Res.isOk] at hw
          | ok st4 v2 =>
            simp only [ha]
            split
            · cases hpr : env.providerResult (ProviderReq.openai "gpt-4"
                  (conv ++ [("user", m)])) with
              | error e => simp [hpr, Res.isOk]
              | ok ai =>
                simp only [hpr]
                cases h2 : add_to_conversation env
                    { st4 with providerLog := st4.providerLog ++
                      [(u, ProviderReq.openai "gpt-4" (conv ++ [("user", m)]))] }
                    u "assistant" ai with
                | exn _ _ => simp [h2, Res.isOk]
                | ok _ _ => simp [h2, Res.isOk]
            · split
              · cases hpr : env.providerResult (ProviderReq.claude "claude-2"
                    (claudeFlatten (conv ++ [("user", m)]) ++ "\n\nAssistant:") 300) with
                | error e => simp [hpr, Res.isOk]
                | ok ai =>
                  simp only [hpr]
                  cases h2 : add_to_conversation env
                      { st4 with providerLog := st4.providerLog ++
                        [(u, ProviderReq.claude "claude-2"
                          (claudeFlatten (conv ++ [("user", m)]) ++ "\n\nAssistant:") 300)] }
                      u "assistant" ai with
                  | exn _ _ => simp [h2, Res.isOk]
                  | ok _ _ => simp [h2, Res.isOk]
              · simp [Res.isOk]

/-- Claim C2 (amended): an inbound text event whose body does not start
with `!ai` (and which is not a PDF document event) is ignored by
`handle_message`: no classification, no provider dispatch, no reply, no
state change.  Passthrough chat treatment exists only for queries that
are already inside `get_ai_response` (such as the synthetic PDF
follow-up), not for arbitrary inbound text. -/
theorem c2_amended_non_ai_text_ignored (env : Env) (st : SysState) (m : InboundMsg)
    (h1 : ¬(m.hasMedia ∧ m.type = "document" ∧ m.mimetype = "application/pdf"))
    (h2 : pyStartsWith m.body "!ai" = false) :
    handle_message env st m = .ok st [] := by
  unfold handle_message
  rw [if_neg h1, if_neg (by simp [h2])]

/-- Claim C4 (amended): when no storage operation fails, every failure
class (rate limit, download, extraction, provider) is caught and
converted to a single user-visible reply string, so no exception leaves
`handle_message`.  (Storage failures raised in the `!ai` branch do
escape; see the counterexample.) -/
theorem c4_amended_no_untranslated_exception (env : Env) (st : SysState) (m : InboundMsg)
    (h : ∀ n, env.storageFail n = false) :
    (handle_message env st m).isOk = true := by
  unfold handle_message
  split
  · split
    · cases he : env.extractResult with
      | error e => simp [Res.isOk]
      | ok pdf_content =>
        simp only [he]
        cases hr : get_ai_response env
            { st with tempFiles := (st.tempFiles ++ [st.nextTemp]).filter (fun t => t ≠ st.nextTemp),
                      nextTemp := st.nextTemp + 1 }
            m.from_ pdfUploadedQuery (some pdf_content) with
        | exn _ _ => simp [hr, Res.isOk]
        | ok _ _ => simp [hr, Res.isOk]
    · simp [Res.isOk]
  · split
    · cases hr : get_ai_response env st m.from_ (pyStrip (pyDrop m.body 4)) none with
      | exn st' e =>
        have hw := get_ai_response_ok env st m.from_ (pyStrip (pyDrop m.body 4)) none h
        rw [hr] at hw
        simp [Res.isOk] at hw
      | ok _ _ => simp [hr, Res.isOk]
    · simp [Res.isOk]

theorem storageOp_db (env : Env) (st st' : SysState) (h : storageOp env st = some st') :
    st'.db = st.db ∧ st'.clock = st.clock ∧ st'.providerLog = st.providerLog := by
  unfold storageOp at h
  split at h
  · exact absurd h (by simp)
  · rw [show st' = { st with storageOps := st.storageOps + 1 } from by
      injection h with h2; exact h2.symm]
    exact ⟨rfl, rfl, rfl⟩

theorem get_user_data_conversations (env : Env) (st : SysState) (u : String) :
    ((get_user_data env st u).state).db.conversations = st.db.conversations := by
  unfold get_user_data
  cases h1 : storageOp env st with
  | none => simp [Res.state]
  | some st1 =>
    have e1 := (storageOp_db env st st1 h1).1
    simp only [h1]
    cases h2 : st1.db.users.find? (fun x => x.id = u) with
    | some u0 => simp [h2, Res.state, e1]
    | none =>
      simp only [h2]
      cases h3 : storageOp env st1 with
      | none => simp [Res.state, e1]
      | some st2 =>
        have e2 := (storageOp_db env st1 st2 h3).1
        simp [Res.state, e2, e1]

theorem get_conversation_history_state (env : Env) (st : SysState) (u : String) (l : Nat) :
    ((get_conversation_history env st u l).state).db = st.db := by
  unfold get_conversation_history
  cases h1 : storageOp env st with
  | none => simp [Res.state]
  | some st1 =>
    have e1 := (storageOp_db env st st1 h1).1
    simp [h1, Res.state, e1]

theorem update_user_data_conversations (env : Env) (st : SysState) (u p : String) :
    ((update_user_data env st u p).state).db.conversations = st.db.conversations := by
  unfold update_user_data
  cases h1 : storageOp env st with
  | none => simp [Res.state]
  | some st1 =>
    have e1 := (storageOp_db env st st1 h1).1
    simp [h1, Res.state, e1]

theorem pySplit_shape {m : String} {tok : String}
    (htok : (pySplit m).get? 1 = some tok) :
    ∃ a rest, pySplit m = a :: tok :: rest := by
  cases hps : pySplit m with
  | nil => rw [hps] at htok; simp at htok
  | cons a t =>
    cases t with
    | nil => rw [hps] at htok; simp at htok
    | cons b r =>
      rw [hps] at htok
      simp at htok
      exact ⟨a, r, by rw [htok]⟩

theorem switchBlock_some_conversations (env : Env) (st : SysState) (u m tok : String)
    (hsw : pyStartsWith (pyLower m) "!switch" = true)
    (htok : (pySplit m).get? 1 = some tok) :
    ∃ r, switchBlock env st u m = some r ∧
      (r.state).db.conversations = st.db.conversations := by
  obtain ⟨a, rest, hps⟩ := pySplit_shape htok
  unfold switchBlock
  rw [hps]
  simp only [hsw, if_true]
  by_cases hv : pyLower tok = "openai" ∨ pyLower tok = "claude"
  · rw [if_pos hv]
    refine ⟨_, rfl, ?_⟩
    cases hu : update_user_data env st u (pyLower tok) with
    | exn st' e =>
      have := update_user_data_conversations env st u (pyLower tok)
      rw [hu] at this
      simpa [Res.state] using this
    | ok st' v =>
      have := update_user_data_conversations env st u (pyLower tok)
      rw [hu] at this
      simpa [Res.state] using this
  · rw [if_neg hv]
    exact ⟨_, rfl, rfl⟩

theorem switchBlock_invalid (env : Env) (st : SysState) (u m tok : String)
    (hsw : pyStartsWith (pyLower m) "!switch" = true)
    (htok : (pySplit m).get? 1 = some tok)
    (hinv1 : pyLower tok ≠ "openai") (hinv2 : pyLower tok ≠ "claude") :
    switchBlock env st u m = some (.ok st invalidProviderReply) := by
  obtain ⟨a, rest, hps⟩ := pySplit_shape htok
  unfold switchBlock
  rw [hps]
  simp only [hsw, if_true]
  rw [if_neg (by simp [hinv1, hinv2])]

theorem switch_transcript_unchanged (env : Env) (st : SysState)
    (user message : String) (pdf : Option String) (tok : String)
    (hsw : pyStartsWith (pyLower message) "!switch" = true)
    (htok : (pySplit message).get? 1 = some tok) :
    ((get_ai_response env st user message pdf).state).db.conversations
      = st.db.conversations := by
  unfold get_ai_response
  simp only
  cases hg : get_user_data env
      { st with rl := (check_rate_limit st.rl user st.clock).1,
                clock := (check_rate_limit st.rl user st.clock).2 } user with
  | exn st' e =>
    have hc := get_user_data_conversations env
      { st with rl := (check_rate_limit st.rl user st.clock).1,
                clock := (check_rate_limit st.rl user st.clock).2 } user
    rw [hg] at hc
    simpa [Res.state] using hc
  | ok st1 ud =>
    have e1 := get_user_data_conversations env
      { st with rl := (check_rate_limit st.rl user st.clock).1,
                clock := (check_rate_limit st.rl user st.clock).2 } user
    rw [hg] at e1
    simp only [Res.state] at e1
    simp only [hg]
    cases hh : get_conversation_history env st1 user 10 with
    | exn st' e =>
      have e2 := get_conversation_history_state env st1 user 10
      rw [hh] at e2
      simp only [Res.state] at e2
      simp only [hh, Res.state]
      rw [show st'.db.conversations = st1.db.conversations from congrArg DB.conversations e2]
      exact e1
    | ok st2 conv =>
      have e2 := get_conversation_history_state env st1 user 10
      rw [hh] at e2
      simp only [Res.state] at e2
      simp only [hh]
      obtain ⟨r, hr, hrc⟩ := switchBlock_some_conversations env st2 user message tok hsw htok
      simp only [hr]
      rw [hrc, congrArg DB.conversations e2]
      exact e1

theorem switch_invalid_result (env : Env) (st : SysState)
    (user message : String) (pdf : Option String) (tok : String) (u0 : UserRow)
    (hsw : pyStartsWith (pyLower message) "!switch" = true)
    (htok : (pySplit message).get? 1 = some tok)
    (hinv1 : pyLower tok ≠ "openai") (hinv2 : pyLower tok ≠ "claude")
    (hfail : ∀ n, env.storageFail n = false)
    (hfind : st.db.users.find? (fun x => x.id = user) = some u0) :
    ∃ st', get_ai_response env st user message pdf = .ok st' invalidProviderReply ∧
      st'.db = st.db := by
  unfold get_ai_response
  simp only
  unfold get_user_data
  rw [storageOp_ok env _ hfail]
  simp only
  rw [hfind]
  simp only
  unfold get_conversation_history
  rw [storageOp_ok env _ hfail]
  simp only
  rw [switchBlock_invalid env _ user message tok hsw htok hinv1 hinv2]
  exact ⟨_, rfl, rfl⟩

theorem get_user_data_log (env : Env) (st : SysState) (u : String) :
    ((get_user_data env st u).state).providerLog = st.providerLog := by
  unfold get_user_data
  cases h1 : storageOp env st with
  | none => simp [Res.state]
  | some st1 =>
    have e1 := (storageOp_db env st st1 h1).2.2
    simp only [h1]
    cases h2 : st1.db.users.find? (fun x => x.id = u) with
    | some u0 => simp [h2, Res.state, e1]
    | none =>
      simp only [h2]
      cases h3 : storageOp env st1 with
      | none => simp [Res.state, e1]
      | some st2 =>
        have e2 := (storageOp_db env st1 st2 h3).2.2
        simp [Res.state, e2, e1]

theorem get_conversation_history_log (env : Env) (st : SysState) (u : String) (l : Nat) :
    ((get_conversation_history env st u l).state).providerLog = st.providerLog := by
  unfold get_conversation_history
  cases h1 : storageOp env st with
  | none => simp [Res.state]
  | some st1 =>
    have e1 := (storageOp_db env st st1 h1).2.2
    simp [h1, Res.state, e1]

theorem add_to_conversation_log (env : Env) (st : SysState) (u r c : String) :
    ((add_to_conversation env st u r c).state).providerLog = st.providerLog := by
  unfold add_to_conversation
  cases h1 : storageOp env st with
  | none => simp [Res.state]
  | some st1 =>
    have e1 := (storageOp_db env st st1 h1).2.2
    simp [h1, Res.state, e1]

theorem update_user_data_log (env : Env) (st : SysState) (u p : String) :
    ((update_user_data env st u p).state).providerLog = st.providerLog := by
  unfold update_user_data
  cases h1 : storageOp env st with
  | none => simp [Res.state]
  | some st1 =>
    have e1 := (storageOp_db env st st1 h1).2.2
    simp [h1, Res.state, e1]

theorem switchBlock_log (env : Env) (st : SysState) (u m : String) (r : Res String)
    (h : switchBlock env st u m = some r) :
    (r.state).providerLog = st.providerLog := by
  unfold switchBlock at h
  split at h
  · split at h
    · rename_i a second tail heq
      simp only at h
      split at h
      · cases hu : update_user_data env st u (pyLower second) with
        | exn st' e =>
          have := update_user_data_log env st u (pyLower second)
          rw [hu] at this
          simp [hu] at h
          simpa [← h, Res.state] using this
        | ok st' v =>
          have := update_user_data_log env st u (pyLower second)
          rw [hu] at this
          simp [hu] at h
          simpa [← h, Res.state] using this
      · simp at h
        simp [← h, Res.state]
    · simp at h
  · simp at h

theorem get_conversation_history_val (env : Env) (st st2 : SysState) (u : String)
    (l : Nat) (conv : List (String × String))
    (h : get_conversation_history env st u l = .ok st2 conv) :
    conv = get_conversation_history_db st.db u l := by
  unfold get_conversation_history at h
  cases h1 : storageOp env st with
  | none => rw [h1] at h; exact absurd h (by simp)
  | some st1 =>
    have e1 := (storageOp_db env st st1 h1).1
    rw [h1] at h
    simp only [Res.ok.injEq] at h
    rw [← h.2, e1]

theorem get_conversation_history_db_congr (db db' : DB) (u : String) (l : Nat)
    (h : db.conversations = db'.conversations) :
    get_conversation_history_db db u l = get_conversation_history_db db' u l := by
  simp [get_conversation_history_db, historyRows, h]

/-- Claim C7: for every chat event, the conversation window inside any
provider request issued during the event is exactly the stored history
captured from the state as it was before the event appended the new
user turn (and any document-derived system turn); the new user message
is passed separately as the final `("user", message)` element, not read
back from storage. -/
theorem c7_window_captured_before_new_turn (env : Env) (st : SysState)
    (user message : String) (pdf : Option String)
    (hlog : st.providerLog = []) :
    ∀ e ∈ ((get_ai_response env st user message pdf).state).providerLog,
      e.2 = ProviderReq.openai "gpt-4"
          (get_conversation_history_db st.db user 10 ++ [("user", message)]) ∨
      e.2 = ProviderReq.claude "claude-2"
          (claudeFlatten (get_conversation_history_db st.db user 10 ++ [("user", message)])
            ++ "\n\nAssistant:") 300 := by
  unfold get_ai_response
  simp only
  cases hg : get_user_data env
      { st with rl := (check_rate_limit st.rl user st.clock).1,
                clock := (check_rate_limit st.rl user st.clock).2 } user with
  | exn st' e =>
    have hl := get_user_data_log env
      { st with rl := (check_rate_limit st.rl user st.clock).1,
                clock := (check_rate_limit st.rl user st.clock).2 } user
    rw [hg] at hl
    simp only [Res.state] at hl ⊢
    simp [hl, hlog]
  | ok st1 ud =>
    have hl1 := get_user_data_log env
      { st with rl := (check_rate_limit st.rl user st.clock).1,
                clock := (check_rate_limit st.rl user st.clock).2 } user
    rw [hg] at hl1
    simp only [Res.state] at hl1
    have hc1 := get_user_data_conversations env
      { st with rl := (check_rate_limit st.rl user st.clock).1,
                clock := (check_rate_limit st.rl user st.clock).2 } user
    rw [hg] at hc1
    simp only [Res.state] at hc1
    simp only [hg]
    cases hh : get_conversation_history env st1 user 10 with
    | exn st' e =>
      have hl2 := get_conversation_history_log env st1 user 10
      rw [hh] at hl2
      simp only [Res.state] at hl2 ⊢
      simp [hh, Res.state, hl2, hl1, hlog]
    | ok st2 conv =>
      have hl2 := get_conversation_history_log env st1 user 10
      rw [hh] at hl2
      simp only [Res.state] at hl2
      have hlemptyst2 : st2.providerLog = [] := by rw [hl2, hl1, hlog]
      have hconv : conv = get_conversation_history_db st.db user 10 := by
        rw [get_conversation_history_val env st1 st2 user 10 conv hh]
        exact get_conversation_history_db_congr _ _ _ _ hc1
      simp only [hh]
      cases hsb : switchBlock env st2 user message with
      | some r =>
        have := switchBlock_log env st2 user message r hsb
        simp only [hsb]
        simp [this, hlemptyst2]
      | none =>
        simp only [hsb]
        have main : ∀ st4 : SysState, st4.providerLog = [] →
            ∀ e ∈ ((match (if ud.1 = "openai" then true else false) with
              | _ => st4).providerLog), False := by
          intro st4 h4 e he
          simp [h4] at he
        clear main
        -- pdf step
        have pdfCase : ∀ st3 : SysState, st3.providerLog = [] →
            ∀ res : Res String,
            (res = match add_to_conversation env st3 user "user" message with
              | .exn st e => .exn st e
              | .ok st _ =>
                if ud.1 = "openai" then
                  let req := ProviderReq.openai "gpt-4" (conv ++ [("user", message)])
                  let st := { st with providerLog := st.providerLog ++ [(user, req)] }
                  match env.providerResult req with
                  | .error _ => .ok st apologyReply
                  | .ok ai_message =>
                    match add_to_conversation env st user "assistant" ai_message with
                    | .exn st _ => .ok st apologyReply
                    | .ok st _ => .ok st ai_message
                else if ud.1 = "claude" then
                  let prompt := claudeFlatten (conv ++ [("user", message)]) ++ "\n\nAssistant:"
                  let req := ProviderReq.claude "claude-2" prompt 300
                  let st := { st with providerLog := st.providerLog ++ [(user, req)] }
                  match env.providerResult req with
                  | .error _ => .ok st apologyReply
                  | .ok ai_message =>
                    match add_to_conversation env st user "assistant" ai_message with
                    | .exn st _ => .ok st apologyReply
                    | .ok st _ => .ok st ai_message
                else
                  .ok st apologyReply) →
            ∀ e ∈ (res.state).providerLog,
              e.2 = ProviderReq.openai "gpt-4" (conv ++ [("user", message)]) ∨
              e.2 = ProviderReq.claude "claude-2"
                (claudeFlatten (conv ++ [("user", message)]) ++ "\n\nAssistant:") 300 := by
          intro st3 h3 res hres e he
          cases ha : add_to_conversation env st3 user "user" message with
          | exn st' ex =>
            have hl4 := add_to_conversation_log env st3 user "user" message
            rw [ha] at hl4
            simp only [Res.state] at hl4
            rw [ha] at hres
            rw [hres] at he
            simp [Res.state, hl4, h3] at he
          | ok st4 v =>
            have hl4 := add_to_conversation_log env st3 user "user" message
            rw [ha] at hl4
            simp only [Res.state] at hl4
            have h4 : st4.providerLog = [] := by rw [hl4, h3]
            rw [ha] at hres
            by_cases ho : ud.1 = "openai"
            · simp only [ho, if_true] at hres
              cases hpr : env.providerResult (ProviderReq.openai "gpt-4"
                  (conv ++ [("user", message)])) with
              | error ex =>
                rw [hpr] at hres
                rw [hres] at he
                simp [Res.state, h4] at he
                rw [he]
                simp
              | ok ai =>
                rw [hpr] at hres
                simp only [] at hres
                cases h2 : add_to_conversation env
                    { st4 with providerLog := st4.providerLog ++
                      [(user, ProviderReq.openai "gpt-4" (conv ++ [("user", message)]))] }
                    user "assistant" ai with
                | exn st' ex =>
                  have hl5 := add_to_conversation_log env
                    { st4 with providerLog := st4.providerLog ++
                      [(user, ProviderReq.openai "gpt-4" (conv ++ [("user", message)]))] }
                    user "assistant" ai
                  rw [h2] at hl5
                  simp only [Res.state] at hl5
                  rw [h2] at hres
                  rw [hres] at he
                  simp [Res.state, hl5, h4] at he
                  rw [he]
                  simp
                | ok st5 v2 =>
                  have hl5 := add_to_conversation_log env
                    { st4 with providerLog := st4.providerLog ++
                      [(user, ProviderReq.openai "gpt-4" (conv ++ [("user", message)]))] }
                    user "assistant" ai
                  rw [h2] at hl5
                  simp only [Res.state] at hl5
                  rw [h2] at hres
                  rw [hres] at he
                  simp [Res.state, hl5, h4] at he
                  rw [he]
                  simp
            · simp only [ho, if_false] at hres
              by_cases hcl : ud.1 = "claude"
              · simp only [hcl, if_true] at hres
                cases hpr : env.providerResult (ProviderReq.claude "claude-2"
                    (claudeFlatten (conv ++ [("user", message)]) ++ "\n\nAssistant:") 300) with
                | error ex =>
                  rw [hpr] at hres
                  rw [hres] at he
                  simp [Res.state, h4] at he
                  rw [he]
                  simp
                | ok ai =>
                  rw [hpr] at hres
                  simp only [] at hres
                  cases h2 : add_to_conversation env
                      { st4 with providerLog := st4.providerLog ++
                        [(user, ProviderReq.claude "claude-2"
                          (claudeFlatten (conv ++ [("user", message)]) ++ "\n\nAssistant:") 300)] }
                      user "assistant" ai with
                  | exn st' ex =>
                    have hl5 := add_to_conversation_log env
                      { st4 with providerLog := st4.providerLog ++
                        [(user, ProviderReq.claude "claude-2"
                          (claudeFlatten (conv ++ [("user", message)]) ++ "\n\nAssistant:") 300)] }
                      user "assistant" ai
                    rw [h2] at hl5
                    simp only [Res.state] at hl5
                    rw [h2] at hres
                    rw [hres] at he
                    simp [Res.state, hl5, h4] at he
                    rw [he]
                    simp
                  | ok st5 v2 =>
                    have hl5 := add_to_conversation_log env
                      { st4 with providerLog := st4.providerLog ++
                        [(user, ProviderReq.claude "claude-2"
                          (claudeFlatten (conv ++ [("user", message)]) ++ "\n\nAssistant:") 300)] }
                      user "assistant" ai
                    rw [h2] at hl5
                    simp only [Res.state] at hl5
                    rw [h2] at hres
                    rw [hres] at he
                    simp [Res.state, hl5, h4] at he
                    rw [he]
                    simp
              · simp only [hcl, if_false] at hres
                rw [hres] at he
                simp [Res.state, h4] at he
        cases pdf with
        | none =>
          intro e he
          rw [← hconv]
          exact pdfCase st2 hlemptyst2 _ rfl e he
        | some t =>
          cases hpa : add_to_conversation env st2 user "system" (pdfTemplate t) with
          | exn st' ex =>
            have hl3 := add_to_conversation_log env st2 user "system" (pdfTemplate t)
            rw [hpa] at hl3
            simp only [Res.state] at hl3
            simp only [hpa]
            intro e he
            simp only [Res.state] at he
            rw [hl3, hlemptyst2] at he
            simp at he
          | ok st3 v =>
            have hl3 := add_to_conversation_log env st2 user "system" (pdfTemplate t)
            rw [hpa] at hl3
            simp only [Res.state] at hl3
            have h3 : st3.providerLog = [] := by rw [hl3, hlemptyst2]
            simp only [hpa]
            intro e he
            rw [← hconv]
            exact pdfCase st3 h3 _ rfl e he

theorem add_to_conversation_effect (env : Env) (st : SysState) (u r c : String)
    (st' : SysState) (v : Unit)
    (h : add_to_conversation env st u r c = .ok st' v) :
    st'.db.conversations = st.db.conversations ++ [⟨u, r, c⟩] := by
  unfold add_to_conversation at h
  cases h1 : storageOp env st with
  | none => rw [h1] at h; exact absurd h (by simp)
  | some st1 =>
    have e1 := (storageOp_db env st st1 h1).1
    rw [h1] at h
    simp only [Res.ok.injEq] at h
    rw [← h.1, e1]

theorem switchBlock_none_of_not_switch (env : Env) (st : SysState) (u m : String)
    (hsw : pyStartsWith (pyLower m) "!switch" = false) :
    switchBlock env st u m = none := by
  unfold switchBlock
  simp [hsw]

/-- Claim C8: if every provider call fails (and storage does not), a
chat event returns the generic apology string, and the transcript
afterwards is the old transcript plus the (optional) system turn and
the user turn — no assistant turn is recorded for the event. -/
theorem c8_provider_failure_keeps_user_turn_only (env : Env) (st : SysState)
    (user message : String) (pdf : Option String)
    (hfail : ∀ n, env.storageFail n = false)
    (hprov : ∀ r, env.providerResult r = .error ())
    (hsw : pyStartsWith (pyLower message) "!switch" = false) :
    ∃ st', get_ai_response env st user message pdf = .ok st' apologyReply ∧
      st'.db.conversations = st.db.conversations ++
        (match pdf with
          | some t => [⟨user, "system", pdfTemplate t⟩]
          | none => []) ++ [⟨user, "user", message⟩] := by
  unfold get_ai_response
  simp only
  cases hg : get_user_data env
      { st with rl := (check_rate_limit st.rl user st.clock).1,
                clock := (check_rate_limit st.rl user st.clock).2 } user with
  | exn st' e =>
    have hw := get_user_data_ok env
      { st with rl := (check_rate_limit st.rl user st.clock).1,
                clock := (check_rate_limit st.rl user st.clock).2 } user hfail
    rw [hg] at hw
    simp [Res.isOk] at hw
  | ok st1 ud =>
    have hc1 := get_user_data_conversations env
      { st with rl := (check_rate_limit st.rl user st.clock).1,
                clock := (check_rate_limit st.rl user st.clock).2 } user
    rw [hg] at hc1
    simp only [Res.state] at hc1
    simp only [hg]
    cases hh : get_conversation_history env st1 user 10 with
    | exn st' e =>
      have hw := get_conversation_history_ok env st1 user 10 hfail
      rw [hh] at hw
      simp [Res.isOk] at hw
    | ok st2 conv =>
      have hc2 := get_conversation_history_state env st1 user 10
      rw [hh] at hc2
      simp only [Res.state] at hc2
      simp only [hh]
      rw [switchBlock_none_of_not_switch env st2 user message hsw]
      simp only
      have mainStep : ∀ st3 : SysState,
          st3.db.conversations = st.db.conversations ++
            (match pdf with
              | some t => [⟨user, "system", pdfTemplate t⟩]
              | none => []) →
          ∃ st', (match add_to_conversation env st3 user "user" message with
            | .exn st e => Res.exn st e
            | .ok st _ =>
              if ud.1 = "openai" then
                let req := ProviderReq.openai "gpt-4" (conv ++ [("user", message)])
                let st := { st with providerLog := st.providerLog ++ [(user, req)] }
                match env.providerResult req with
                | .error _ => .ok st apologyReply
                | .ok ai_message =>
                  match add_to_conversation env st user "assistant" ai_message with
                  | .exn st _ => .ok st apologyReply
                  | .ok st _ => .ok st ai_message
              else if ud.1 = "claude" then
                let prompt := claudeFlatten (conv ++ [("user", message)]) ++ "\n\nAssistant:"
                let req := ProviderReq.claude "claude-2" prompt 300
                let st := { st with providerLog := st.providerLog ++ [(user, req)] }
                match env.providerResult req with
                | .error _ => .ok st apologyReply
                | .ok ai_message =>
                  match add_to_conversation env st user "assistant" ai_message with
                  | .exn st _ => .ok st apologyReply
                  | .ok st _ => .ok st ai_message
              else
                .ok st apologyReply) = .ok st' apologyReply ∧
            st'.db.conversations = st.db.conversations ++
              (match pdf with
                | some t => [⟨user, "system", pdfTemplate t⟩]
                | none => []) ++ [⟨user, "user", message⟩] := by
        intro st3 h3
        cases ha : add_to_conversation env st3 user "user" message with
        | exn st' ex =>
          have hw := add_to_conversation_ok env st3 user "user" message hfail
          rw [ha] at hw
          simp [Res.isOk] at hw
        | ok st4 v =>
          have h4 := add_to_conversation_effect env st3 user "user" message st4 v ha
          by_cases ho : ud.1 = "openai"
          · simp only [ho, if_true]
            rw [hprov (ProviderReq.openai "gpt-4" (conv ++ [("user", message)]))]
            refine ⟨_, rfl, ?_⟩
            simp only
            rw [h4, h3]
          · simp only [ho, if_false]
            by_cases hcl : ud.1 = "claude"
            · simp only [hcl, if_true]
              rw [hprov (ProviderReq.claude "claude-2"
                (claudeFlatten (conv ++ [("user", message)]) ++ "\n\nAssistant:") 300)]
              refine ⟨_, rfl, ?_⟩
              simp only
              rw [h4, h3]
            · simp only [hcl, if_false]
              refine ⟨_, rfl, ?_⟩
              rw [h4, h3]
      cases pdf with
      | none =>
        have h2 : st2.db.conversations = st.db.conversations ++ [] := by
          rw [List.append_nil]
          rw [show st2.db.conversations = st1.db.conversations from
            congrArg DB.conversations hc2]
          exact hc1
        simpa using mainStep st2 (by simpa using h2)
      | some t =>
        cases hpa : add_to_conversation env st2 user "system" (pdfTemplate t) with
        | exn st' ex =>
          have hw := add_to_conversation_ok env st2 user "system" (pdfTemplate t) hfail
          rw [hpa] at hw
          simp [Res.isOk] at hw
        | ok st3 v =>
          have h3 := add_to_conversation_effect env st2 user "system" (pdfTemplate t) st3 v hpa
          simp only [hpa]
          refine mainStep st3 ?_
          rw [h3]
          rw [show st2.db.conversations = st1.db.conversations from
            congrArg DB.conversations hc2]
          rw [hc1]

theorem providersOk_of_users_eq {db db' : DB} (h : db'.users = db.users)
    (hOk : ProvidersOk db) : ProvidersOk db' := by
  intro u hu
  exact hOk u (h ▸ hu)

theorem get_user_data_providers (env : Env) (st : SysState) (u : String)
    (hOk : ProvidersOk st.db) :
    ProvidersOk ((get_user_data env st u).state).db := by
  unfold get_user_data
  cases h1 : storageOp env st with
  | none => simpa [Res.state] using hOk
  | some st1 =>
    have e1 := (storageOp_db env st st1 h1).1
    simp only [h1]
    cases h2 : st1.db.users.find? (fun x => x.id = u) with
    | some u0 =>
      simp only [h2, Res.state]
      exact providersOk_of_users_eq (congrArg DB.users e1) hOk
    | none =>
      simp only [h2]
      cases h3 : storageOp env st1 with
      | none =>
        simp only [Res.state]
        exact providersOk_of_users_eq (congrArg DB.users e1) hOk
      | some st2 =>
        have e2 := (storageOp_db env st1 st2 h3).1
        simp only [Res.state]
        intro row hrow
        simp only at hrow
        rcases List.mem_append.mp hrow with hold | hnew
        · exact hOk row (by rw [← congrArg DB.users e1, ← congrArg DB.users e2]; exact hold)
        · left
          simp only [List.mem_singleton] at hnew
          rw [hnew]
  
theorem update_user_data_providers (env : Env) (st : SysState) (u p : String)
    (hp : p = "openai" ∨ p = "claude") (hOk : ProvidersOk st.db) :
    ProvidersOk ((update_user_data env st u p).state).db := by
  unfold update_user_data
  cases h1 : storageOp env st with
  | none => simpa [Res.state] using hOk
  | some st1 =>
    have e1 := (storageOp_db env st st1 h1).1
    simp only [h1, Res.state]
    intro row hrow
    simp only at hrow
    obtain ⟨orig, horig, hmap⟩ := List.mem_map.mp hrow
    by_cases hid : orig.id = u
    · rw [← hmap]
      simp only [hid, if_true]
      exact hp
    · rw [← hmap]
      simp only [hid, if_false]
      exact hOk orig (by rw [← congrArg DB.users e1]; exact horig)

theorem add_to_conversation_users (env : Env) (st : SysState) (u r c : String) :
    ((add_to_conversation env st u r c).state).db.users = st.db.users := by
  unfold add_to_conversation
  cases h1 : storageOp env st with
  | none => simp [Res.state]
  | some st1 =>
    have e1 := (storageOp_db env st st1 h1).1
    simp [h1, Res.state, congrArg DB.users e1]

theorem switchBlock_providers (env : Env) (st : SysState) (u m : String) (r : Res String)
    (h : switchBlock env st u m = some r) (hOk : ProvidersOk st.db) :
    ProvidersOk (r.state).db := by
  unfold switchBlock at h
  split at h
  · split at h
    · rename_i a second tail heq
      simp only at h
      split at h
      · rename_i hvalid
        cases hu : update_user_data env st u (pyLower second) with
        | exn st' e =>
          have hr := update_user_data_providers env st u (pyLower second) hvalid hOk
          rw [hu] at hr
          simp [hu] at h
          rw [← h]
          simpa [Res.state] using hr
        | ok st' v =>
          have hr := update_user_data_providers env st u (pyLower second) hvalid hOk
          rw [hu] at hr
          simp [hu] at h
          rw [← h]
          simpa [Res.state] using hr
      · simp at h
        rw [← h]
        exact hOk
    · simp at h
  · simp at h

theorem get_ai_response_providers (env : Env) (st : SysState)
    (user message : String) (pdf : Option String)
    (hOk : ProvidersOk st.db) :
    ProvidersOk ((get_ai_response env st user message pdf).state).db := by
  unfold get_ai_response
  simp only
  cases hg : get_user_data env
      { st with rl := (check_rate_limit st.rl user st.clock).1,
                clock := (check_rate_limit st.rl user st.clock).2 } user with
  | exn st' e =>
    have hr := get_user_data_providers env
      { st with rl := (check_rate_limit st.rl user st.clock).1,
                clock := (check_rate_limit st.rl user st.clock).2 } user hOk
    rw [hg] at hr
    simpa [Res.state] using hr
  | ok st1 ud =>
    have h1 : ProvidersOk st1.db := by
      have hr := get_user_data_providers env
        { st with rl := (check_rate_limit st.rl user st.clock).1,
                  clock := (check_rate_limit st.rl user st.clock).2 } user hOk
      rw [hg] at hr
      simpa [Res.state] using hr
    simp only [hg]
    cases hh : get_conversation_history env st1 user 10 with
    | exn st' e =>
      have hd := get_conversation_history_state env st1 user 10
      rw [hh] at hd
      simp only [Res.state] at hd
      simp only [hh, Res.state]
      exact hd ▸ h1
    | ok st2 conv =>
      have hd := get_conversation_history_state env st1 user 10
      rw [hh] at hd
      simp only [Res.state] at hd
      have h2 : ProvidersOk st2.db := hd ▸ h1
      simp only [hh]
      cases hsb : switchBlock env st2 user message with
      | some r =>
        simp only [hsb]
        exact switchBlock_providers env st2 user message r hsb h2
      | none =>
        simp only [hsb]
        have tailCase : ∀ st3 : SysState, ProvidersOk st3.db →
            ∀ res : Res String,
            (res = match add_to_conversation env st3 user "user" message with
              | .exn st e => .exn st e
              | .ok st _ =>
                if ud.1 = "openai" then
                  let req := ProviderReq.openai "gpt-4" (conv ++ [("user", message)])
                  let st := { st with providerLog := st.providerLog ++ [(user, req)] }
                  match env.providerResult req with
                  | .error _ => .ok st apologyReply
                  | .ok ai_message =>
                    match add_to_conversation env st user "assistant" ai_message with
                    | .exn st _ => .ok st apologyReply
                    | .ok st _ => .ok st ai_message
                else if ud.1 = "claude" then
                  let prompt := claudeFlatten (conv ++ [("user", message)]) ++ "\n\nAssistant:"
                  let req := ProviderReq.claude "claude-2" prompt 300
                  let st := { st with providerLog := st.providerLog ++ [(user, req)] }
                  match env.providerResult req with
                  | .error _ => .ok st apologyReply
                  | .ok ai_message =>
                    match add_to_conversation env st user "assistant" ai_message with
                    | .exn st _ => .ok st apologyReply
                    | .ok st _ => .ok st ai_message
                else
                  .ok st apologyReply) →
            ProvidersOk ((res.state).db) := by
          intro st3 h3 res hres
          cases ha : add_to_conversation env st3 user "user" message with
          | exn st' ex =>
            have hu := add_to_conversation_users env st3 user "user" message
            rw [ha] at hu
            simp only [Res.state] at hu
            rw [ha] at hres
            rw [hres]
            simp only [Res.state]
            exact providersOk_of_users_eq hu h3
          | ok st4 v =>
            have hu := add_to_conversation_users env st3 user "user" message
            rw [ha] at hu
            simp only [Res.state] at hu
            have h4 : ProvidersOk st4.db := providersOk_of_users_eq hu h3
            rw [ha] at hres
            by_cases ho : ud.1 = "openai"
            · simp only [ho, if_true] at hres
              cases hpr : env.providerResult (ProviderReq.openai "gpt-4"
                  (conv ++ [("user", message)])) with
              | error ex =>
                rw [hpr] at hres
                simp only [] at hres
                rw [hres]
                simpa [Res.state] using h4
              | ok ai =>
                rw [hpr] at hres
                simp only [] at hres
                cases h2a : add_to_conversation env
                    { st4 with providerLog := st4.providerLog ++
                      [(user, ProviderReq.openai "gpt-4" (conv ++ [("user", message)]))] }
                    user "assistant" ai with
                | exn st' ex =>
                  have hu5 := add_to_conversation_users env
                    { st4 with providerLog := st4.providerLog ++
                      [(user, ProviderReq.openai "gpt-4" (conv ++ [("user", message)]))] }
                    user "assistant" ai
                  rw [h2a] at hu5
                  simp only [Res.state] at hu5
                  rw [h2a] at hres
                  rw [hres]
                  simp only [Res.state]
                  exact providersOk_of_users_eq hu5 h4
                | ok st5 v2 =>
                  have hu5 := add_to_conversation_users env
                    { st4 with providerLog := st4.providerLog ++
                      [(user, ProviderReq.openai "gpt-4" (conv ++ [("user", message)]))] }
                    user "assistant" ai
                  rw [h2a] at hu5
                  simp only [Res.state] at hu5
                  rw [h2a] at hres
                  rw [hres]
                  simp only [Res.state]
                  exact providersOk_of_users_eq hu5 h4
            · simp only [ho, if_false] at hres
              by_cases hcl : ud.1 = "claude"
              · simp only [hcl, if_true] at hres
                cases hpr : env.providerResult (ProviderReq.claude "claude-2"
                    (claudeFlatten (conv ++ [("user", message)]) ++ "\n\nAssistant:") 300) with
                | error ex =>
                  rw [hpr] at hres
                  simp only [] at hres
                  rw [hres]
                  simpa [Res.state] using h4
                | ok ai =>
                  rw [hpr] at hres
                  simp only [] at hres
                  cases h2a : add_to_conversation env
                      { st4 with providerLog := st4.providerLog ++
                        [(user, ProviderReq.claude "claude-2"
                          (claudeFlatten (conv ++ [("user", message)]) ++ "\n\nAssistant:") 300)] }
                      user "assistant" ai with
                  | exn st' ex =>
                    have hu5 := add_to_conversation_users env
                      { st4 with providerLog := st4.providerLog ++
                        [(user, ProviderReq.claude "claude-2"
                          (claudeFlatten (conv ++ [("user", message)]) ++ "\n\nAssistant:") 300)] }
                      user "assistant" ai
                    rw [h2a] at hu5
                    simp only [Res.state] at hu5
                    rw [h2a] at hres
                    rw [hres]
                    simp only [Res.state]
                    exact providersOk_of_users_eq hu5 h4
                  | ok st5 v2 =>
                    have hu5 := add_to_conversation_users env
                      { st4 with providerLog := st4.providerLog ++
                        [(user, ProviderReq.claude "claude-2"
                          (claudeFlatten (conv ++ [("user", message)]) ++ "\n\nAssistant:") 300)] }
                      user "assistant" ai
                    rw [h2a] at hu5
                    simp only [Res.state] at hu5
                    rw [h2a] at hres
                    rw [hres]
                    simp only [Res.state]
                    exact providersOk_of_users_eq hu5 h4
              · simp only [hcl, if_false] at hres
                rw [hres]
                simpa [Res.state] using h4
        cases pdf with
        | none => exact tailCase st2 h2 _ rfl
        | some t =>
          cases hpa : add_to_conversation env st2 user "system" (pdfTemplate t) with
          | exn st' ex =>
            have hu3 := add_to_conversation_users env st2 user "system" (pdfTemplate t)
            rw [hpa] at hu3
            simp only [Res.state] at hu3
            simp only [hpa, Res.state]
            exact providersOk_of_users_eq hu3 h2
          | ok st3 v =>
            have hu3 := add_to_conversation_users env st2 user "system" (pdfTemplate t)
            rw [hpa] at hu3
            simp only [Res.state] at hu3
            simp only [hpa]
            exact tailCase st3 (providersOk_of_users_eq hu3 h2) _ rfl

theorem handle_message_providers (env : Env) (st : SysState) (m : InboundMsg)
    (hOk : ProvidersOk st.db) :
    ProvidersOk ((handle_message env st m).state).db := by
  unfold handle_message
  split
  · split
    · cases he : env.extractResult with
      | error e => simpa [Res.state] using hOk
      | ok pdf_content =>
        simp only [he]
        cases hr : get_ai_response env
            { st with tempFiles := (st.tempFiles ++ [st.nextTemp]).filter (fun t => t ≠ st.nextTemp),
                      nextTemp := st.nextTemp + 1 }
            m.from_ pdfUploadedQuery (some pdf_content) with
        | exn st' e =>
          have hp := get_ai_response_providers env
            { st with tempFiles := (st.tempFiles ++ [st.nextTemp]).filter (fun t => t ≠ st.nextTemp),
                      nextTemp := st.nextTemp + 1 }
            m.from_ pdfUploadedQuery (some pdf_content) hOk
          rw [hr] at hp
          simp only [hr, Res.state] at hp ⊢
          exact hp
        | ok st' resp =>
          have hp := get_ai_response_providers env
            { st with tempFiles := (st.tempFiles ++ [st.nextTemp]).filter (fun t => t ≠ st.nextTemp),
                      nextTemp := st.nextTemp + 1 }
            m.from_ pdfUploadedQuery (some pdf_content) hOk
          rw [hr] at hp
          simp only [hr, Res.state] at hp ⊢
          exact hp
    · simpa [Res.state] using hOk
  · split
    · cases hr : get_ai_response env st m.from_ (pyStrip (pyDrop m.body 4)) none with
      | exn st' e =>
        have hp := get_ai_response_providers env st m.from_ (pyStrip (pyDrop m.body 4)) none hOk
        rw [hr] at hp
        simp only [hr, Res.state] at hp ⊢
        exact hp
      | ok st' resp =>
        have hp := get_ai_response_providers env st m.from_ (pyStrip (pyDrop m.body 4)) none hOk
        rw [hr] at hp
        simp only [hr, Res.state] at hp ⊢
        exact hp
    · simpa [Res.state] using hOk

/-- Claim C1: the source does not reject the sixth request.  For a user
issuing 6 chat requests within 60 seconds, every request (the sixth
included) is answered with the provider reply, the throttle reply is
never produced, six provider calls are made for the user, and the sixth
request blocks its caller until the window elapses (the clock jumps from
arrival time 5 to 60): `sleep_and_retry` sleeps instead of raising, so
the `except` branch that would return the throttle reply is dead code. -/
theorem c1_sixth_request_blocked_not_rejected :
    (runEvents envHappy initState sixAliceRequests).2 = List.replicate 6 (some ["ok"]) ∧
    some [throttleReply] ∉ (runEvents envHappy initState sixAliceRequests).2 ∧
    ((runEvents envHappy initState sixAliceRequests).1.providerLog.filter
      (fun e => e.1 = "alice")).length = 6 ∧
    (runEvents envHappy initState sixAliceRequests).1.clock = 60 :=
  ⟨by decide, by decide, by decide, by decide⟩

/-- Counterexample for claim C2: the plain chat text `"hello"` (no
command prefix) produces no reply and no dispatch at all — the event is
dropped with the state untouched, contradicting the claim that it is
classified as passthrough, dispatched to the provider and answered. -/
theorem c2_counterexample_plain_text_ignored :
    handle_message envHappy initState (textEvent "alice" "hello") = .ok initState [] := by
  decide

/-- Witness for claim C2 (amended) at a concrete non-command text. -/
theorem c2_amended_witness :
    handle_message envHappy initState (textEvent "alice" "how are you") = .ok initState [] :=
  c2_amended_non_ai_text_ignored envHappy initState (textEvent "alice" "how are you")
    (by decide) (by decide)

/-- Claim C3: the code leaks the staged temp file when extraction
fails.  For a PDF document event whose text extraction raises, the
handler replies with the PDF error message but the temporary file is
still present afterwards (`tempFiles = [0]`), because `os.unlink` is
only reached after a successful extraction; on the success path the
file is deleted. -/
theorem c3_temp_file_persists_on_extraction_failure :
    handle_message envExtractFail initState (pdfEvent "alice") =
      .ok { initState with tempFiles := [0], nextTemp := 1 } [pdfErrorReply] ∧
    (handle_message envHappy initState (pdfEvent "alice")).state.tempFiles = [] :=
  ⟨by decide, by decide⟩

/-- Counterexample for claim C4: a storage failure during an `!ai` chat
event escapes `handle_message` as a raw exception — the `!ai` branch
has no `try/except`, so nothing converts it into a reply string. -/
theorem c4_counterexample_storage_exception_escapes :
    handle_message envStorageFail initState (textEvent "alice" "!ai hi") =
      .exn { initState with rl := { last_reset := 0, num_calls := 1 } } .storage := by
  decide

/-- Witness for claim C4 (amended) at a concrete `!ai` event with
fault-free storage. -/
theorem c4_amended_witness :
    (handle_message envHappy initState (textEvent "alice" "!ai hi")).isOk = true :=
  c4_amended_no_untranslated_exception envHappy initState (textEvent "alice" "!ai hi")
    (fun _ => rfl)

/-- Counterexample for claim C5: the bare message `"!switch"` starts
with the switch prefix (so the claim counts it as a switch command),
yet handling it appends a user turn (and an assistant turn) to the
transcript, because the source only returns from the switch block when
a second token is present. -/
theorem c5_counterexample_bare_switch_appends :
    pyStartsWith (pyLower "!switch") "!switch" = true ∧
    (get_ai_response envHappy initState "alice" "!switch" none).state.db.conversations =
      [⟨"alice", "user", "!switch"⟩, ⟨"alice", "assistant", "ok"⟩] :=
  ⟨by decide, by decide⟩

/-- Claim C5 (amended): for every message that starts (un-trimmed,
case-insensitively) with `!switch` and has a second whitespace token,
handling appends nothing to the transcript; when additionally the
target token is invalid, storage is fault-free and the user exists, the
reply is the validation error string and the whole database is left
unchanged.  (A bare `!switch` with no target falls through to chat
handling instead — see the counterexample.) -/
theorem c5_amended_switch_with_target (env : Env) (st : SysState)
    (user message : String) (pdf : Option String) (tok : String)
    (hsw : pyStartsWith (pyLower message) "!switch" = true)
    (htok : (pySplit message).get? 1 = some tok) :
    ((get_ai_response env st user message pdf).state).db.conversations
      = st.db.conversations ∧
    (pyLower tok ≠ "openai" → pyLower tok ≠ "claude" →
      (∀ n, env.storageFail n = false) →
      ∀ u0, st.db.users.find? (fun x => x.id = user) = some u0 →
      ∃ st', get_ai_response env st user message pdf = .ok st' invalidProviderReply ∧
        st'.db = st.db) :=
  ⟨switch_transcript_unchanged env st user message pdf tok hsw htok,
   fun h1 h2 h3 u0 h4 =>
     switch_invalid_result env st user message pdf tok u0 hsw htok h1 h2 h3 h4⟩

/-- Witness for claim C5 (amended) at `!switch banana` for an existing
user. -/
theorem c5_amended_witness :
    ((get_ai_response envHappy stAlice "alice" "!switch banana" none).state).db.conversations
      = stAlice.db.conversations ∧
    ∃ st', get_ai_response envHappy stAlice "alice" "!switch banana" none =
      .ok st' invalidProviderReply ∧ st'.db = stAlice.db :=
  ⟨(c5_amended_switch_with_target envHappy stAlice "alice" "!switch banana" none "banana"
      (by decide) (by decide)).1,
   (c5_amended_switch_with_target envHappy stAlice "alice" "!switch banana" none "banana"
      (by decide) (by decide)).2 (by decide) (by decide) (fun _ => rfl)
      ⟨"alice", "openai", 0⟩ (by decide)⟩

/-- Claim C6: the limiter is not per user.  `check_rate_limit` ignores
its `user_id` argument entirely (identical outcome for any two users on
the same limiter state), and concretely: after `bob` issues five
requests, `alice`'s very first request — arriving at t = 10 — is stalled
until t = 60 by the shared window, whereas with no other traffic the
same request completes at t = 10. -/
theorem c6_rate_limit_shared_across_users :
    (∀ rl u v t, check_rate_limit rl u t = check_rate_limit rl v t) ∧
    (runEvents envHappy initState fiveBobThenAlice).1.clock = 60 ∧
    (runEvents envHappy initState aliceAloneAtTen).1.clock = 10 :=
  ⟨fun _ _ _ _ => rfl, by decide, by decide⟩

/-- Witness for claim C7: the single provider request issued for a chat
event on a two-turn history carries exactly the pre-event window plus
the new message. -/
theorem c7_window_witness :
    ("alice", ProviderReq.openai "gpt-4"
        (get_conversation_history_db stConv.db "alice" 10 ++ [("user", "hello")])).2
      = ProviderReq.openai "gpt-4"
        (get_conversation_history_db stConv.db "alice" 10 ++ [("user", "hello")]) ∨
    ("alice", ProviderReq.openai "gpt-4"
        (get_conversation_history_db stConv.db "alice" 10 ++ [("user", "hello")])).2
      = ProviderReq.claude "claude-2"
        (claudeFlatten (get_conversation_history_db stConv.db "alice" 10 ++ [("user", "hello")])
          ++ "\n\nAssistant:") 300 :=
  c7_window_captured_before_new_turn envHappy stConv "alice" "hello" none rfl
    ("alice", ProviderReq.openai "gpt-4"
      (get_conversation_history_db stConv.db "alice" 10 ++ [("user", "hello")]))
    (by decide)

/-- Witness for claim C8: a failing provider call on a fresh state
leaves exactly the user turn and returns the apology. -/
theorem c8_provider_failure_witness :
    ∃ st', get_ai_response envProviderFail initState "alice" "hello" none =
      .ok st' apologyReply ∧
      st'.db.conversations = initState.db.conversations ++ [] ++ [⟨"alice", "user", "hello"⟩] :=
  c8_provider_failure_keeps_user_turn_only envProviderFail initState "alice" "hello" none
    (fun _ => rfl) (fun _ => rfl) (by decide)

/-- Claim C9: `get_conversation_history` returns the at-most-`limit`
most recent messages of the user's transcript, oldest first: the result
has length `min limit n` where `n` is the user's history length, it is
a suffix of the chronologically ordered history (hence exactly the most
recent messages in ascending order), and it is empty for a user with no
stored messages. -/
theorem c9_recent_window_returns_latest_ascending (db : DB) (user_id : String) (limit : Nat) :
    (get_conversation_history_db db user_id limit).length
      = min limit (historyRows db user_id).length ∧
    (get_conversation_history_db db user_id limit).IsSuffix (historyRows db user_id) ∧
    ((∀ m ∈ db.conversations, m.user_id ≠ user_id) →
      get_conversation_history_db db user_id limit = []) := by
  refine ⟨?_, ?_, ?_⟩
  · simp [get_conversation_history_db]
  · have h := List.take_prefix limit (historyRows db user_id).reverse
    have h2 : ((historyRows db user_id).reverse.take limit).reverse.IsSuffix
        (historyRows db user_id).reverse.reverse := List.reverse_suffix.mpr h
    simpa using h2
  · intro hne
    have : (db.conversations.filter (fun m => m.user_id = user_id)) = [] := by
      rw [List.filter_eq_nil_iff]
      intro a ha
      simpa using hne a ha
    simp [get_conversation_history_db, historyRows, this]

/-- Witness for claim C9: with messages `m1..m12` stored for `u`, the
window of 10 is `m3..m12` in order, and an unseen user gets `[]`. -/
theorem c9_recent_window_witness :
    get_conversation_history_db db12 "v" 10 = [] ∧
    get_conversation_history_db db12 "u" 10 =
      [("user", "m3"), ("user", "m4"), ("user", "m5"), ("user", "m6"),
       ("user", "m7"), ("user", "m8"), ("user", "m9"), ("user", "m10"),
       ("user", "m11"), ("user", "m12")] :=
  ⟨(c9_recent_window_returns_latest_ascending db12 "v" 10).2.2 (by decide), by decide⟩

/-- Claim C10: the stored provider of every user row is always
`"openai"` or `"claude"`: the invariant holds in the initial (empty)
database and is preserved by handling any inbound event — user creation
inserts `"openai"`, and the only call to `update_user_data` is guarded
by membership of the target in the two-element set. -/
theorem c10_provider_field_always_valid :
    ProvidersOk initState.db ∧
    ∀ env st m, ProvidersOk st.db →
      ProvidersOk ((handle_message env st m).state).db :=
  ⟨by decide, fun env st m h => handle_message_providers env st m h⟩

/-- Witness for claim C10: the invariant survives a concrete event that
creates a user and switches its provider. -/
theorem c10_provider_witness :
    ProvidersOk ((handle_message envHappy initState
      (textEvent "alice" "!ai !switch claude")).state).db :=
  c10_provider_field_always_valid.2 envHappy initState
    (textEvent "alice" "!ai !switch claude") (by decide)
